import Mathlib

/-!
Shallow embedding of `pic_bot.py` (picturebot): the deduplication-and-selection
engine (`RedditCrawler.get_post`), the bounded history store (`NvMHandler.update`
and `NvMHandler._crop_data`), the dispatch step of `Picturebot.send_picture`,
and the command router (`Picturebot.process_commands`).

Python state (the pickle files) is passed explicitly: the content of
`posts.pickle` is a `Hist` value, the content of `update_id.pickle` is an
`Option Int` cursor.  Exceptions that can escape a function are modelled with
`Except PyErr`.  External collaborators (the HTTP fetch, the Telegram client)
are inputs: the fetch result is an `Option (List ChildData)` (`None` on
`HTTPError`), the send outcome is a `Bool`, and the produced Telegram call is
reified as an `Outbound` value.
-/

namespace PicBot

/-- A Python exception that escapes one of the embedded functions. -/
inductive PyErr where
  | typeError
  | indexError
  | sendError
  deriving Repr, DecidableEq

/-- `data['preview']['reddit_video_preview']`: `fallback_url` may be missing
(a `KeyError` that `_get_post_at_position` swallows, returning `{}`). -/
structure RVPreview where
  fallback_url : Option String
  deriving Repr, DecidableEq

/-- `data['preview']`: the `reddit_video_preview` key may be absent, which makes
the candidate a photo post (`is_video = False`). -/
structure Preview where
  reddit_video_preview : Option RVPreview
  deriving Repr, DecidableEq

/-- One entry of `posts['data']['children'][i]['data']` with the keys
`_get_post_at_position` reads.  `none` models a missing key or a JSON null:
both make the function return the empty post `{}`. -/
structure ChildData where
  preview : Option Preview
  url : Option String
  title : Option String
  id : Option String
  deriving Repr, DecidableEq

/-- The well-formed post dict built by `_get_post_at_position`
(`title`, `media_url`, `post_id`, `is_video`).  The `sub_reddit` key that
`get_post` adds always equals its `sub_reddit` parameter, so it is carried
separately. -/
structure ParsedPost where
  title : String
  media_url : String
  post_id : String
  is_video : Bool
  deriving Repr, DecidableEq

/-- The content of `posts.pickle`: a dict from subreddit name to the list of
already-sent post ids, in insertion order (Python dicts preserve it). -/
abbrev Hist := List (String × List String)

/-- Dict lookup `data[key]` / `key in data` on a `Hist`. -/
def histLookup : Hist → String → Option (List String)
  | [], _ => none
  | (k, v) :: t, sub => if k = sub then some v else histLookup t sub

/-- Python `l[-n:]`: the last `min n l.length` elements. -/
def lastN (l : List String) (n : Nat) : List String :=
  l.drop (l.length - n)

/-- `NvMHandler._crop_data`: crops every feed's list to its last `max_length`
elements (note: every key, not only the one just updated). -/
def crop_data (data : Hist) (max_length : Nat) : Hist :=
  data.map fun kv => (kv.1, lastN kv.2 max_length)

/-- The mutation step of `NvMHandler.update`: `data[subreddit].append(post_id)`
if the key exists, else `data[subreddit] = [post_id]` (new key at the end). -/
def histAppend : Hist → String → String → Hist
  | [], sub, pid => [(sub, [pid])]
  | (k, v) :: t, sub, pid =>
      if k = sub then (k, v ++ [pid]) :: t else (k, v) :: histAppend t sub pid

/-- `NvMHandler.update`: append, then `_crop_data` with its default cap 10. -/
def update (data : Hist) (sub pid : String) : Hist :=
  crop_data (histAppend data sub pid) 10

/-- `RedditCrawler.is_post_in_latest_posts`. -/
def is_post_in_latest_posts (latest_posts : Hist) (sub pid : String) : Bool :=
  match histLookup latest_posts sub with
  | some l => l.contains pid
  | none => false

/-- Regular expressions as passed to `re.compile`, as an abstract syntax. -/
inductive Regex where
  | emp
  | eps
  | chr (c : Char)
  | dot
  | alt (r₁ r₂ : Regex)
  | cat (r₁ r₂ : Regex)
  | star (r : Regex)
  deriving Repr, DecidableEq

/-- Whether the regex accepts the empty string. -/
def Regex.nullable : Regex → Bool
  | .emp => false
  | .eps => true
  | .chr _ => false
  | .dot => false
  | .alt r₁ r₂ => r₁.nullable || r₂.nullable
  | .cat r₁ r₂ => r₁.nullable && r₂.nullable
  | .star _ => true

/-- Brzozowski derivative of a regex by one character. -/
def Regex.deriv : Regex → Char → Regex
  | .emp, _ => .emp
  | .eps, _ => .emp
  | .chr c, a => if a = c then .eps else .emp
  | .dot, _ => .eps
  | .alt r₁ r₂, a => .alt (r₁.deriv a) (r₂.deriv a)
  | .cat r₁ r₂, a =>
      if r₁.nullable then .alt (.cat (r₁.deriv a) r₂) (r₂.deriv a)
      else .cat (r₁.deriv a) r₂
  | .star r, a => .cat (r.deriv a) (.star r)

/-- Whether the regex matches the whole character list. -/
def Regex.accepts : Regex → List Char → Bool
  | r, [] => r.nullable
  | r, c :: cs => (r.deriv c).accepts cs

/-- Python `re.match` semantics: success iff the regex matches some prefix of
the string, anchored at position 0 (not `re.fullmatch`). -/
def Regex.matchAt0 (r : Regex) (s : List Char) : Bool :=
  (List.range (s.length + 1)).any fun k => r.accepts (s.take k)

/-- `RedditCrawler.does_post_match`: `re.compile(regex).match(title) is not None`. -/
def does_post_match (title : String) (regex : Regex) : Bool :=
  regex.matchAt0 title.data

/-- The `filter_regex` mapping from subreddit to compiled pattern. -/
abbrev FilterMap := List (String × Regex)

/-- Dict lookup on the filter mapping (`post['sub_reddit'] in filter_regex`
followed by `filter_regex[post['sub_reddit']]`). -/
def filterLookup : FilterMap → String → Option Regex
  | [], _ => none
  | (k, r) :: t, sub => if k = sub then some r else filterLookup t sub

/-- Lines 152-154 of `get_post`: a candidate is kept by the filter step iff
either its subreddit has no entry in `filter_regex`, or its title matches the
entry via `does_post_match`. -/
def filterAllows (filter_regex : FilterMap) (sub title : String) : Bool :=
  match filterLookup filter_regex sub with
  | some r => does_post_match title r
  | none => true

/-- `RedditCrawler._get_post_at_position`: `none` stands for the empty dict
`{}` (missing media, missing key, or `posts is None`).  Index access
`children[i]` is only reached from `get_post` with `i` in range. -/
def get_post_at_position (posts : Option (List ChildData)) (i : Nat) :
    Option ParsedPost :=
  match posts with
  | none => none
  | some children =>
    match children[i]? with
    | none => none
    | some data =>
      match data.preview with
      | none => none
      | some pv =>
        let is_video := pv.reddit_video_preview.isSome
        let media_url? : Option String :=
          match pv.reddit_video_preview with
          | some rvp => rvp.fallback_url
          | none => data.url
        match data.title, media_url?, data.id with
        | some t, some m, some pid => some ⟨t, m, pid, is_video⟩
        | _, _, _ => none

/-- The `for i in range(max_retries)` loop of `get_post`.  The accumulator is
the Python variable `post`, which is overwritten at each iteration: a `continue`
after a filter mismatch or a history hit leaves the just-examined candidate in
`post`, and loop exhaustion returns whatever `post` last held. -/
def get_post_loop (posts : Option (List ChildData)) (sub : String)
    (filter_regex : FilterMap) (latest_posts : Hist) :
    Nat → Nat → Option ParsedPost → Option ParsedPost
  | _, 0, acc => acc
  | i, fuel + 1, _ =>
    match get_post_at_position posts i with
    | none => get_post_loop posts sub filter_regex latest_posts (i + 1) fuel none
    | some post =>
      if filterAllows filter_regex sub post.title then
        if is_post_in_latest_posts latest_posts sub post.post_id then
          get_post_loop posts sub filter_regex latest_posts (i + 1) fuel (some post)
        else some post
      else get_post_loop posts sub filter_regex latest_posts (i + 1) fuel (some post)

/-- `RedditCrawler.get_post`.  `latest_posts` is the content of `posts.pickle`
that `self.nvm.load()` returns.  The result triple is the returned post, the
file content after the call, and whether `self.nvm.store` was called.
`posts = none` (a failed fetch) hits `len(posts['data']['children'])` on a
`None` value: an uncaught `TypeError`. -/
def get_post (posts : Option (List ChildData)) (sub_reddit : String)
    (filter_regex : FilterMap) (latest_posts : Hist) (max_retries : Nat) :
    Except PyErr (Option ParsedPost × Hist × Bool) :=
  match posts with
  | none => .error .typeError
  | some children =>
    let n := min children.length max_retries
    match get_post_loop posts sub_reddit filter_regex latest_posts 0 n none with
    | some post => .ok (some post, update latest_posts sub_reddit post.post_id, true)
    | none => .ok (none, latest_posts, false)

/-- A Telegram API call as produced by `TelegramBot.send_message`. -/
inductive Outbound where
  | text (chat_id : Int) (msg : String)
  | photo (chat_id : Int) (media : String) (caption : String)
  | video (chat_id : Int) (media : String) (caption : String)
  deriving Repr, DecidableEq

/-- `TelegramBot.send_message`: plain text when `media is None`, else
`sendVideo`/`sendPhoto` with the message as caption, per `is_video`. -/
def send_message (chat_id : Int) (msg : String) (media : Option String)
    (is_video : Bool) : Outbound :=
  match media with
  | none => .text chat_id msg
  | some m => if is_video then .video chat_id m msg else .photo chat_id m msg

/-- Lines 331-337 of `Picturebot.send_picture`: the outbound message built from
the selection result (`post['sub_reddit']` always equals the `sub_reddit`
parameter `get_post` was called with). -/
def build_outbound (chat_id : Int) (sub_reddit : String)
    (post : Option ParsedPost) : Outbound :=
  match post with
  | some p =>
      send_message chat_id (sub_reddit ++ ": " ++ p.title) (some p.media_url) p.is_video
  | none =>
      send_message chat_id "Did not find an adequate post. Tired of searching..." none false

/-- One `Picturebot.send_picture` cycle over an already-fetched feed.
`latest_posts` is the `posts.pickle` content before the cycle, `fetched` the
result of `get_subreddit_posts_from_api` (`none` on `HTTPError`), `sendOk`
whether the Telegram send succeeds.  Result: the `posts.pickle` content after
the cycle, and either the message that was sent or the exception that escaped.
History is stored inside `get_post`, before the send is attempted. -/
def send_picture (latest_posts : Hist) (sub_reddit : String)
    (filter_regex : FilterMap) (chat_id : Int)
    (fetched : Option (List ChildData)) (sendOk : Bool) :
    Hist × Except PyErr Outbound :=
  match get_post fetched sub_reddit filter_regex latest_posts 10 with
  | .error e => (latest_posts, .error e)
  | .ok (post, latest', _) =>
      if sendOk then (latest', .ok (build_outbound chat_id sub_reddit post))
      else (latest', .error .sendError)

/-- One inbound Telegram update, with the keys `process_commands` reads. -/
structure TUpdate where
  update_id : Int
  chat_type : String
  chat_id : Int
  from_id : Int
  text : String
  deriving Repr, DecidableEq

/-- An executed command action: `command['command_function'](command_param, test)`.
The only registered command is `MakeMeHappy` (no admin required). -/
structure Invocation where
  command_string : String
  command_param : Option String
  deriving Repr, DecidableEq

/-- Python `s.startswith(p)` over the character lists. -/
def startsWithChars : List Char → List Char → Bool
  | _, [] => true
  | [], _ :: _ => false
  | c :: cs, p :: ps => c = p && startsWithChars cs ps

/-- Python `s.startswith(p)`. -/
def pyStartsWith (s act : String) : Bool :=
  startsWithChars s.data act.data

/-- Python `s.split(sep)` with a one-character separator: splits at every
occurrence, keeping empty pieces, and yields `[s]` when `sep` is absent. -/
def splitChars (sep : Char) : List Char → List (List Char)
  | [] => [[]]
  | c :: cs =>
    let r := splitChars sep cs
    if c = sep then [] :: r
    else
      match r with
      | [] => [[c]]
      | h :: t => (c :: h) :: t

/-- Python `s.split(' ')`. -/
def pySplitSpace (s : String) : List String :=
  (splitChars ' ' s.data).map String.mk

/-- Python `s.lower()` (basic latin letters, as in the command names used). -/
def pyLower (s : String) : String :=
  String.mk (s.data.map Char.toLower)

/-- The `self._commands` table: `(command_string, command_requires_admin)`. -/
def commands : List (String × Bool) :=
  [("MakeMeHappy", false)]

/-- The `next(...)` lookup: first command whose name matches case-insensitively. -/
def find_command (name : String) : Option (String × Bool) :=
  commands.find? fun c => pyLower c.1 == pyLower name

/-- The body of the `for update in updates` loop in `process_commands`
(lines 365-400): returns the invoked action if any, or the `IndexError`
raised by `command_split[1]` when the split has a single element.
`isAdmin` is the Telegram `getChatMember` oracle. -/
def process_update (chat_id : Int) (activation : String)
    (isAdmin : Int → Int → Bool) (u : TUpdate) :
    Except PyErr (Option Invocation) :=
  if (u.chat_type == "supergroup" || u.chat_type == "group") && u.chat_id == chat_id then
    if pyStartsWith u.text activation then
      match pySplitSpace u.text with
      | _ :: command_name :: rest =>
        let command_param : Option String :=
          if rest.length == 1 then rest.head? else none
        match find_command command_name with
        | some cmd =>
          let command_permissions :=
            if cmd.2 then isAdmin u.chat_id u.from_id else true
          if command_permissions then .ok (some ⟨command_name, command_param⟩)
          else .ok none
        | none => .ok none
      | _ => .error .indexError
    else .ok none
  else .ok none

/-- The update-processing loop: actions run in order; an uncaught exception
aborts the remainder of the loop. -/
def process_updates (chat_id : Int) (activation : String)
    (isAdmin : Int → Int → Bool) : List TUpdate → Except PyErr (List Invocation)
  | [] => .ok []
  | u :: t =>
    match process_update chat_id activation isAdmin u with
    | .error e => .error e
    | .ok r =>
      match process_updates chat_id activation isAdmin t with
      | .error e => .error e
      | .ok rs =>
        match r with
        | some inv => .ok (inv :: rs)
        | none => .ok rs

/-- `Picturebot.process_commands`.  `cursor` is the `update_id.pickle` content
(`none` models the `{}` that `load` returns when the file is absent), `updates`
the list the Telegram API returned.  Result: the cursor stored after the call
and the list of invoked actions (or the exception that escaped the loop).
The new cursor is written before any action runs. -/
def process_commands (cursor : Option Int) (updates : List TUpdate)
    (chat_id : Int) (activation : String) (isAdmin : Int → Int → Bool) :
    Option Int × Except PyErr (List Invocation) :=
  if 1 < updates.length then
    let rest := updates.drop 1
    (rest.getLast?.map (·.update_id),
     process_updates chat_id activation isAdmin rest)
  else (cursor, .ok [])

/-! ## Fixtures: concrete candidates used to evaluate the embedded functions -/

/-- A well-formed photo candidate with id `a`. -/
def c1_child : ChildData := ⟨some ⟨none⟩, some "u", some "t", some "a"⟩

/-- A well-formed photo candidate with id `1`. -/
def c4_child : ChildData := ⟨some ⟨none⟩, some "u1", some "t1", some "1"⟩

/-- A well-formed photo candidate with id `x`. -/
def c2_child : ChildData := ⟨some ⟨none⟩, some "mu", some "tt", some "x"⟩

/-- A well-formed photo candidate with id `y`. -/
def c3_child : ChildData := ⟨some ⟨none⟩, some "mu3", some "t3", some "y"⟩

/-! ## History store lemmas -/

/-- After `histAppend`, the updated key maps to its old value (empty when the
key was absent) with `pid` appended. -/
theorem histLookup_histAppend (data : Hist) (sub pid : String) :
    histLookup (histAppend data sub pid) sub
      = some ((histLookup data sub).getD [] ++ [pid]) := by
  induction data with
  | nil => simp [histAppend, histLookup]
  | cons kv t ih =>
    obtain ⟨k, v⟩ := kv
    by_cases hk : k = sub
    · subst hk; simp [histAppend, histLookup]
    · simp [histAppend, histLookup, hk, ih]

/-- `crop_data` maps each value through `lastN`. -/
theorem histLookup_crop (data : Hist) (sub : String) (m : Nat) :
    histLookup (crop_data data m) sub
      = (histLookup data sub).map (fun v => lastN v m) := by
  induction data with
  | nil => rfl
  | cons kv t ih =>
    obtain ⟨k, v⟩ := kv
    by_cases hk : k = sub
    · subst hk; simp [crop_data, histLookup]
    · simp [crop_data, histLookup, hk] at ih ⊢
      exact ih

/-- The length of `lastN`. -/
theorem lastN_length (l : List String) (n : Nat) :
    (lastN l n).length = l.length - (l.length - n) := by
  simp [lastN]

/-- Claim C5: `NvMHandler.update` appends `post_id` to the feed entry
(creating it when absent) and truncates to the last 10 elements; a feed that
was at the cap stays at exactly the cap, dropping the oldest element and
preserving the order of the rest. -/
theorem update_spec (data : Hist) (sub pid : String) :
    histLookup (update data sub pid) sub
      = some (lastN ((histLookup data sub).getD [] ++ [pid]) 10)
    ∧ (lastN ((histLookup data sub).getD [] ++ [pid]) 10).length ≤ 10
    ∧ (((histLookup data sub).getD []).length = 10 →
        lastN ((histLookup data sub).getD [] ++ [pid]) 10
          = ((histLookup data sub).getD []).drop 1 ++ [pid]
        ∧ (lastN ((histLookup data sub).getD [] ++ [pid]) 10).length = 10) :=
  by
  refine ⟨?_, ?_, ?_⟩
  · unfold update
    rw [histLookup_crop, histLookup_histAppend]
    rfl
  · rw [lastN_length]; omega
  · intro h10
    have hlen : (((histLookup data sub).getD []) ++ [pid]).length = 11 := by
      simp [h10]
    constructor
    · unfold lastN
      rw [hlen]
      show List.drop 1 _ = _
      rw [List.drop_append_of_le_length (by omega)]
    · rw [lastN_length]; omega

/-- Witness for `update_spec` at a history whose feed entry is at the cap. -/
def d10 : Hist :=
  [("r", ["0", "1", "2", "3", "4", "5", "6", "7", "8", "9"])]

/-- Witness: `update_spec` applied to a feed already holding 10 ids. -/
theorem update_spec_witness :
    lastN (((histLookup d10 "r").getD []) ++ ["x"]) 10
      = ((histLookup d10 "r").getD []).drop 1 ++ ["x"]
    ∧ (lastN (((histLookup d10 "r").getD []) ++ ["x"]) 10).length = 10 :=
  (update_spec d10 "r" "x").2.2 (by decide)

/-! ## The selection function on concrete inputs -/

/-- Claim C1: refuted by the code.  The candidate with id `a` is recorded in
history under feed `r`, the effective budget `min 1 10 = 1` equals its index
plus one, and yet `get_post` returns it (the loop exhausts after the
history-hit `continue`, the Python variable `post` still holds the rejected
candidate, and the trailing `if post:` records and returns it). -/
theorem get_post_returns_in_history_candidate :
    is_post_in_latest_posts [("r", ["a"])] "r" "a" = true
    ∧ get_post (some [c1_child]) "r" [] [("r", ["a"])] 10
      = .ok (some ⟨"t", "u", "a", false⟩, [("r", ["a", "a"])], true) := by
  exact ⟨rfl, rfl⟩

/-- Claim C4: refuted by the code.  The only scanned candidate fails the
novelty check, so no candidate passes all three checks, yet the result is not
empty: the rejected candidate is returned (and re-recorded). -/
theorem get_post_not_empty_when_nothing_qualifies :
    is_post_in_latest_posts [("r", ["1"])] "r" "1" = true
    ∧ get_post (some [c4_child]) "r" [] [("r", ["1"])] 10
      = .ok (some ⟨"t1", "u1", "1", false⟩, [("r", ["1", "1"])], true) := by
  exact ⟨rfl, rfl⟩

/-- Claim C6: refuted by the code.  When the fetch fails,
`get_subreddit_posts_from_api` returns `None` and `get_post` evaluates
`len(posts['data']['children'])` on it: an uncaught `TypeError` escapes
`send_picture` instead of a normal empty-selection cycle. -/
theorem get_post_fetch_failure_raises (sub : String) (fr : FilterMap)
    (hist : Hist) (n : Nat) (chat : Int) (sendOk : Bool) :
    get_post none sub fr hist n = .error PyErr.typeError
    ∧ send_picture hist sub fr chat none sendOk
      = (hist, .error PyErr.typeError) := by
  exact ⟨rfl, rfl⟩

/-! ## Effects of the selection function -/

/-- Claim C2 counterexample: on a fresh candidate, `get_post` returns a
changed history (the chosen id is recorded) with the store flag set — it
records and persists itself, rather than leaving that to the caller. -/
theorem get_post_records_and_persists :
    get_post (some [c2_child]) "r" [] [] 10
      = .ok (some ⟨"tt", "mu", "x", false⟩, [("r", ["x"])], true)
    ∧ ([("r", ["x"])] : Hist) ≠ ([] : Hist) := by
  exact ⟨rfl, by decide⟩

/-- Claim C2 (amended): `get_post` is a deterministic function of its inputs,
but it is not effect-free: whenever it returns a post it has already appended
that post's id to the loaded history (cropped to the last 10) and stored the
result; the history is unchanged and nothing is stored only when it returns
no post. -/
theorem get_post_effects (children : List ChildData) (sub : String)
    (fr : FilterMap) (hist : Hist) (n : Nat) (post : Option ParsedPost)
    (hist' : Hist) (stored : Bool)
    (h : get_post (some children) sub fr hist n = .ok (post, hist', stored)) :
    (post = none → hist' = hist ∧ stored = false)
    ∧ (∀ p, post = some p → hist' = update hist sub p.post_id ∧ stored = true) :=
  by
  simp only [get_post] at h
  cases hl : get_post_loop (some children) sub fr hist 0 (min children.length n) none with
  | none =>
    rw [hl] at h
    simp only [Except.ok.injEq, Prod.mk.injEq] at h
    obtain ⟨h1, h2, h3⟩ := h
    subst h1; subst h2; subst h3
    exact ⟨fun _ => ⟨rfl, rfl⟩, fun p hp => by cases hp⟩
  | some q =>
    rw [hl] at h
    simp only [Except.ok.injEq, Prod.mk.injEq] at h
    obtain ⟨h1, h2, h3⟩ := h
    subst h1; subst h2; subst h3
    constructor
    · intro hp; cases hp
    · intro p hp
      cases hp
      exact ⟨rfl, rfl⟩

/-- Witness: `get_post_effects` at the fresh-candidate input. -/
theorem get_post_effects_witness :
    ([("r", ["x"])] : Hist) = update [] "r" "x" ∧ true = true :=
  (get_post_effects [c2_child] "r" [] [] 10 (some ⟨"tt", "mu", "x", false⟩)
      [("r", ["x"])] true rfl).2 ⟨"tt", "mu", "x", false⟩ rfl

/-! ## Send failures -/

/-- Claim C3 counterexample: a cycle whose send fails still leaves the chosen
id recorded in history — the snapshot after the failed send differs from the
snapshot before the cycle, and the failure escapes as an exception. -/
theorem send_failure_mutates_history :
    send_picture [] "r" [] 7 (some [c3_child]) false
      = ([("r", ["y"])], .error PyErr.sendError)
    ∧ ([("r", ["y"])] : Hist) ≠ ([] : Hist) := by
  exact ⟨rfl, by decide⟩

/-- Claim C3 (amended): the send outcome has no effect on history.  History
is updated and stored inside `get_post`, before the send is attempted, so a
failed send leaves exactly the post-selection snapshot on disk — the same
snapshot a successful send leaves — and the send failure itself propagates
out of the cycle uncaught. -/
theorem send_picture_failed_send (hist : Hist) (sub : String)
    (fr : FilterMap) (chat : Int) (fetched : Option (List ChildData))
    (post : Option ParsedPost) (hist' : Hist) (st : Bool)
    (h : get_post fetched sub fr hist 10 = .ok (post, hist', st)) :
    send_picture hist sub fr chat fetched false = (hist', .error PyErr.sendError)
    ∧ (send_picture hist sub fr chat fetched false).fst
      = (send_picture hist sub fr chat fetched true).fst := by
  unfold send_picture
  rw [h]
  exact ⟨rfl, rfl⟩

/-- Witness: `send_picture_failed_send` at the fresh-candidate input. -/
theorem send_picture_failed_send_witness :
    send_picture [] "r" [] 7 (some [c3_child]) false
      = ([("r", ["y"])], .error PyErr.sendError)
    ∧ (send_picture [] "r" [] 7 (some [c3_child]) false).fst
      = (send_picture [] "r" [] 7 (some [c3_child]) true).fst :=
  send_picture_failed_send [] "r" [] 7 (some [c3_child])
    (some ⟨"t3", "mu3", "y", false⟩) [("r", ["y"])] true rfl

/-! ## The title filter -/

/-- `re.match` succeeds exactly when the pattern accepts some prefix of the
string: anchoring at position 0, not a full match. -/
theorem matchAt0_iff (r : Regex) (cs : List Char) :
    r.matchAt0 cs = true ↔ ∃ p q, cs = p ++ q ∧ r.accepts p = true := by
  unfold Regex.matchAt0
  rw [List.any_eq_true]
  constructor
  · rintro ⟨k, _, hacc⟩
    exact ⟨cs.take k, cs.drop k, (cs.take_append_drop k).symm, hacc⟩
  · rintro ⟨p, q, hcs, hacc⟩
    refine ⟨p.length, ?_, ?_⟩
    · rw [List.mem_range]
      subst hcs
      simp only [List.length_append]
      omega
    · subst hcs
      rw [List.take_append_of_le_length (Nat.le_refl _), List.take_length]
      exact hacc

/-- Claim C7: when the filter mapping has an entry for the feed, the candidate
passes iff the entry matches a prefix of its title (anchored at position 0,
not a full match); when the feed has no entry, every candidate passes. -/
theorem filterAllows_spec (fr : FilterMap) (sub title : String) :
    (∀ r, filterLookup fr sub = some r →
      (filterAllows fr sub title = true
        ↔ ∃ p q, title.data = p ++ q ∧ r.accepts p = true))
    ∧ (filterLookup fr sub = none → filterAllows fr sub title = true) := by
  constructor
  · intro r hr
    simp only [filterAllows, hr, does_post_match]
    exact matchAt0_iff r title.data
  · intro hr
    simp [filterAllows, hr]

/-- The pattern `cat` (matching titles that begin with the literal `cat`). -/
def catRegex : Regex :=
  .cat (.chr 'c') (.cat (.chr 'a') (.chr 't'))

/-- A filter mapping with one entry for feed `r`. -/
def catFilter : FilterMap := [("r", catRegex)]

/-- Witness: `filterAllows_spec` on the title `cat pic` (kept because the
pattern matches its prefix even though it does not match the full title) and
on a feed with no entry (always kept). -/
theorem filterAllows_spec_witness :
    filterAllows catFilter "r" "cat pic" = true
    ∧ Regex.accepts catRegex "cat pic".data = false
    ∧ filterAllows catFilter "zzz" "anything" = true := by
  refine ⟨?_, by decide, ?_⟩
  · exact ((filterAllows_spec catFilter "r" "cat pic").1 catRegex rfl).mpr
      ⟨"cat".data, " pic".data, by decide, by decide⟩
  · exact (filterAllows_spec catFilter "zzz" "anything").2 rfl

/-! ## The command router -/

/-- Dropping the head does not change the last element of a list with at
least two elements. -/
theorem getLast?_drop_one {α : Type} (l : List α) (h : 1 < l.length) :
    (l.drop 1).getLast? = l.getLast? := by
  match l with
  | [] => simp at h
  | [a] => simp at h
  | a :: b :: t => simp [List.getLast?_cons_cons]

/-- Claim C8: with at most one inbound update, the stored cursor is unchanged
and no action is dispatched (a single pending update is dropped); with more
than one update, the newest update's identifier becomes the new cursor and the
updates after the first are dispatched. -/
theorem process_commands_spec (cursor : Option Int) (updates : List TUpdate)
    (chat : Int) (act : String) (adm : Int → Int → Bool) :
    (updates.length ≤ 1 →
      process_commands cursor updates chat act adm = (cursor, .ok []))
    ∧ (1 < updates.length →
      process_commands cursor updates chat act adm
        = (updates.getLast?.map (fun u => u.update_id),
           process_updates chat act adm (updates.drop 1))) := by
  constructor
  · intro h
    unfold process_commands
    rw [if_neg (by omega)]
  · intro h
    unfold process_commands
    rw [if_pos h]
    simp only [getLast?_drop_one _ h]

/-- An inbound update that is not a bot command. -/
def u1 : TUpdate := ⟨5, "group", 7, 1, "hello"⟩

/-- A second inbound update that is not a bot command. -/
def u2 : TUpdate := ⟨6, "group", 7, 1, "world"⟩

/-- Witness: `process_commands_spec` on a single update (dropped, cursor kept)
and on two updates (cursor moves to the newest id 6). -/
theorem process_commands_spec_witness :
    process_commands (some 4) [u1] 7 "/picbot" (fun _ _ => false) = (some 4, .ok [])
    ∧ process_commands (some 4) [u1, u2] 7 "/picbot" (fun _ _ => false)
      = (some 6, .ok []) := by
  constructor
  · exact (process_commands_spec (some 4) [u1] 7 "/picbot" (fun _ _ => false)).1
      (by decide)
  · rw [(process_commands_spec (some 4) [u1, u2] 7 "/picbot" (fun _ _ => false)).2
      (by decide)]
    rfl

/-! ## The outbound message -/

/-- Claim C9: a selected post is sent with caption `feed ++ ": " ++ title` as
a video or photo per `is_video`; an empty selection is sent as the fixed
fallback text with no media. -/
theorem build_outbound_spec (chat : Int) (sub : String) :
    (∀ p : ParsedPost,
      build_outbound chat sub (some p)
        = if p.is_video then Outbound.video chat p.media_url (sub ++ ": " ++ p.title)
          else Outbound.photo chat p.media_url (sub ++ ": " ++ p.title))
    ∧ build_outbound chat sub none
      = Outbound.text chat "Did not find an adequate post. Tired of searching..." :=
  ⟨fun _ => rfl, rfl⟩

/-! ## Command parsing totality -/

/-- An update whose text is the activation string plus a trailing space. -/
def u_trailing : TUpdate := ⟨1, "group", 5, 9, "/picbot "⟩

/-- Claim C10 counterexample: the text `/picbot ` starts with the activation
string and has no second whitespace-separated token, yet `split(' ')` yields
two pieces (the second empty), so index 1 exists and the router reports an
unrecognized command instead of raising `IndexError`. -/
theorem process_update_trailing_space_no_error :
    pyStartsWith "/picbot " "/picbot" = true
    ∧ ((pySplitSpace "/picbot ").filter (fun t => t != "")).length = 1
    ∧ process_update 5 "/picbot" (fun _ _ => false) u_trailing = .ok none := by
  refine ⟨by decide, by decide, rfl⟩

/-- Claim C10 (amended): only when the text contains no space at all — so that
`split(' ')` is a one-element list, for example the text exactly equal to the
activation string — does reading index 1 of the split fail, and the router
raises `IndexError` instead of logging an unrecognized command. -/
theorem process_update_no_space_index_error (u : TUpdate) (chat : Int)
    (act : String) (adm : Int → Int → Bool)
    (htype : u.chat_type = "group" ∨ u.chat_type = "supergroup")
    (hchat : u.chat_id = chat)
    (hact : pyStartsWith u.text act = true)
    (hsplit : (pySplitSpace u.text).length = 1) :
    process_update chat act adm u = .error PyErr.indexError := by
  have h1 : (u.chat_type == "supergroup" || u.chat_type == "group") = true := by
    rcases htype with h | h <;> simp [h]
  have h2 : (u.chat_id == chat) = true := by simp [hchat]
  simp only [process_update, h1, h2, Bool.and_self, if_true, hact]
  cases hl : pySplitSpace u.text with
  | nil => rfl
  | cons x t =>
    cases t with
    | nil => rfl
    | cons y t' =>
      exfalso
      rw [hl] at hsplit
      simp at hsplit

/-- An update whose text is exactly the activation string. -/
def u_bare : TUpdate := ⟨2, "group", 5, 9, "/picbot"⟩

/-- Witness: `process_update_no_space_index_error` on the text `/picbot`. -/
theorem process_update_no_space_index_error_witness :
    process_update 5 "/picbot" (fun _ _ => false) u_bare = .error PyErr.indexError :=
  process_update_no_space_index_error u_bare 5 "/picbot" (fun _ _ => false)
    (Or.inl rfl) rfl (by decide) (by decide)

end PicBot
